import Mathlib

/-!
Shallow embedding of `src/pydocuchat.py`: a CLI tool that indexes PDF
documents and answers questions about them through an external
retrieval/generation library.  The pure data flow (path manipulation,
index destinations, prompt construction, menu/loop control decisions) is
modelled as Lean functions; the external collaborators (PDF reading,
vector-index building, the language model) appear only through the
records of the calls the program makes to them.
-/

namespace Pydocuchat

/-- `PATH_TO_PDFS = "pdfs"` (source line 33). -/
def PATH_TO_PDFS : String := "pdfs"

/-- `PATH_TO_INDEXES = "gpt_indexes"` (source line 34). -/
def PATH_TO_INDEXES : String := "gpt_indexes"

/-- The tail component of `os.path.split(p)` on POSIX: everything after the
last `/` of the path (the whole string when there is no `/`). -/
def fileNameOf (p : String) : String :=
  ((p.toList.reverse.takeWhile (fun c => c ≠ '/')).reverse).asString

/-- The one call `pdf_to_index` makes into the external index library that
touches the disk: it reads `source` (via `SimpleDirectoryReader`) and
persists the built index at `persist_dir`
(`index.storage_context.persist(persist_dir=save_path)`, lines 45-48). -/
structure IndexWrite where
  source : String
  persist_dir : String
deriving DecidableEq, Repr

/-- `pdf_to_index(pdf_path, save_path)` (lines 37-50): builds the index from
`pdf_path` and persists it at `save_path`.  The record captures the paths
handed to the external library. -/
def pdf_to_index (pdf_path save_path : String) : IndexWrite :=
  { source := pdf_path, persist_dir := save_path }

/-- The directories an `IndexWrite` creates or overwrites: exactly the one
`persist_dir` of its single `persist` call. -/
def IndexWrite.writes (w : IndexWrite) : List String :=
  [w.persist_dir]

/-- `save_pdf(file_path, absolute)` (lines 78-98):
`_, file_name = os.path.split(file_path)`; in absolute mode the source is
`file_path` itself, in managed mode it is `pdfs/<file_name>`; in both
modes the index is persisted at `gpt_indexes/<file_name>`. -/
def save_pdf (file_path : String) (absolute : Bool) : IndexWrite :=
  let file_name := fileNameOf file_path
  if absolute then
    pdf_to_index file_path (PATH_TO_INDEXES ++ "/" ++ file_name)
  else
    pdf_to_index (PATH_TO_PDFS ++ "/" ++ file_name)
      (PATH_TO_INDEXES ++ "/" ++ file_name)

/-- `QA_PROMPT_TMPL` (lines 61-67), reproduced with the same line pieces as
the source concatenates. -/
def QA_PROMPT_TMPL : String :=
  "We have provided context information below. \n"
  ++ "---------------------\n"
  ++ "{context_str}"
  ++ "\n---------------------\n"
  ++ "Given this information above, please answer the question clearly but as concisely as possible: {query_str}\n"

/-- The literal text of `QA_PROMPT_TMPL` before its first placeholder. -/
def qaSegBeforeContext : String :=
  "We have provided context information below. \n---------------------\n"

/-- The literal text of `QA_PROMPT_TMPL` between its two placeholders. -/
def qaSegBetween : String :=
  "\n---------------------\nGiven this information above, please answer the question clearly but as concisely as possible: "

/-- The literal text of `QA_PROMPT_TMPL` after its last placeholder. -/
def qaSegAfterQuery : String := "\n"

/-- `PromptTemplate(QA_PROMPT_TMPL)` applied to concrete values: Python
`str.format` substitutes each placeholder of the template simultaneously,
so the result is the template's literal segments with `context_str` and
`query_str` spliced into the two holes. -/
def formatQAPrompt (context_str query_str : String) : String :=
  qaSegBeforeContext ++ context_str ++ qaSegBetween ++ query_str ++ qaSegAfterQuery

/-- The data `query_index(query_u, pdf_name)` (lines 53-75) hands to the
external library: the index is loaded from `gpt_indexes/<pdf_name>`, the
query engine is created with `text_qa_template` set to the fixed
`QA_PROMPT` built from `QA_PROMPT_TMPL`, and the engine is asked
`query_u` with streaming enabled. -/
structure QueryCall where
  persist_dir : String
  text_qa_template : String
  question : String
  streaming : Bool
deriving DecidableEq, Repr

/-- `query_index(query_u, pdf_name)` (lines 53-75). -/
def query_index (query_u pdf_name : String) : QueryCall :=
  { persist_dir := PATH_TO_INDEXES ++ "/" ++ pdf_name
    text_qa_template := QA_PROMPT_TMPL
    question := query_u
    streaming := true }

end Pydocuchat

namespace Pydocuchat

/-- C1: for every document path given to `save_pdf`, in managed mode
(`absolute=false`) and in absolute mode (`absolute=true`) alike, the index
is persisted at `gpt_indexes/<base name of the path>`; the mode changes
only the source path handed to `pdf_to_index` (the full path in absolute
mode, `pdfs/<base name>` in managed mode), never the index location. -/
theorem save_pdf_index_location (file_path : String) (absolute : Bool) :
    (save_pdf file_path absolute).persist_dir
      = PATH_TO_INDEXES ++ "/" ++ fileNameOf file_path
    ∧ (save_pdf file_path true).persist_dir
      = (save_pdf file_path false).persist_dir
    ∧ (save_pdf file_path true).source = file_path
    ∧ (save_pdf file_path false).source
      = PATH_TO_PDFS ++ "/" ++ fileNameOf file_path := by
  refine ⟨?_, rfl, rfl, rfl⟩
  cases absolute <;> rfl

/-- C2: two `save_pdf` calls whose input paths share the same base file
name target the identical index directory `gpt_indexes/<base name>`,
whatever directories the paths point into and whatever entry mode each
call uses; and each call writes only to that one directory, so nothing is
created under any other name. -/
theorem save_pdf_same_name_same_dir (p1 p2 : String) (m1 m2 : Bool)
    (h : fileNameOf p1 = fileNameOf p2) :
    (save_pdf p1 m1).persist_dir = (save_pdf p2 m2).persist_dir
    ∧ (save_pdf p1 m1).writes
        = [PATH_TO_INDEXES ++ "/" ++ fileNameOf p1]
    ∧ (save_pdf p2 m2).writes
        = [PATH_TO_INDEXES ++ "/" ++ fileNameOf p1] := by
  have e1 : (save_pdf p1 m1).persist_dir
      = PATH_TO_INDEXES ++ "/" ++ fileNameOf p1 := by
    cases m1 <;> rfl
  have e2 : (save_pdf p2 m2).persist_dir
      = PATH_TO_INDEXES ++ "/" ++ fileNameOf p2 := by
    cases m2 <;> rfl
  refine ⟨?_, ?_, ?_⟩
  · rw [e1, e2, h]
  · simp [IndexWrite.writes, e1]
  · simp [IndexWrite.writes, e2, h]

/-- Witness for C2 at concrete inputs: `docs/report.pdf` added in absolute
mode and `other/report.pdf` re-added in managed mode land in the same
index directory `gpt_indexes/report.pdf`. -/
theorem save_pdf_same_name_same_dir_witness :
    (save_pdf "docs/report.pdf" true).persist_dir
      = (save_pdf "other/report.pdf" false).persist_dir
    ∧ (save_pdf "docs/report.pdf" true).writes
        = [PATH_TO_INDEXES ++ "/" ++ fileNameOf "docs/report.pdf"]
    ∧ (save_pdf "other/report.pdf" false).writes
        = [PATH_TO_INDEXES ++ "/" ++ fileNameOf "docs/report.pdf"] :=
  save_pdf_same_name_same_dir "docs/report.pdf" "other/report.pdf" true false
    rfl

/-- C3: every query uses the one fixed prompt template: its text is
exactly the header line, a dashed delimiter, the `context_str` hole, a
closing dashed delimiter, and the concise-answer instruction followed by
the `query_str` hole; substituting retrieved context and the question
into the holes yields the segments with those values spliced in. -/
theorem query_index_prompt_template
    (query_u pdf_name context_str : String) :
    (query_index query_u pdf_name).text_qa_template = QA_PROMPT_TMPL
    ∧ QA_PROMPT_TMPL
        = qaSegBeforeContext ++ "{context_str}" ++ qaSegBetween
            ++ "{query_str}" ++ qaSegAfterQuery
    ∧ formatQAPrompt context_str query_u
        = "We have provided context information below. \n"
          ++ "---------------------\n"
          ++ context_str
          ++ "\n---------------------\n"
          ++ "Given this information above, please answer the question clearly but as concisely as possible: "
          ++ query_u ++ "\n"
    ∧ (query_index query_u pdf_name).question = query_u := by
  refine ⟨rfl, rfl, ?_, rfl⟩
  simp [formatQAPrompt, qaSegBeforeContext, qaSegBetween, qaSegAfterQuery,
    String.append_assoc]

end Pydocuchat

namespace Pydocuchat

/-- The whitespace characters Python's `str.strip()` removes from an ASCII
string: space, tab, newline, carriage return, vertical tab, form feed. -/
def isPySpace (c : Char) : Bool :=
  c = ' ' || c = '\t' || c = '\n' || c = '\r' || c = '\x0b' || c = '\x0c'

/-- Python `query.strip()`: the string with leading and trailing whitespace
removed. -/
def pyStrip (s : String) : String :=
  ((s.toList.dropWhile isPySpace).reverse.dropWhile isPySpace).reverse.asString

/-- What one iteration of the `while True` loop of `process_queries`
(lines 182-191) decides for the line it read: `break` on `"exit"`,
`continue` when the stripped line is empty, otherwise run the query. -/
inductive LoopStep
  | exitLoop
  | skip
  | runQuery (q : String)
deriving DecidableEq, Repr

/-- The branch `process_queries` takes on one input line:
`if query == "exit": break`, `elif not query.strip(): continue`,
else `query_index(query_u=query, ...)`. -/
def process_query_step (query : String) : LoopStep :=
  if query = "exit" then .exitLoop
  else if pyStrip query = "" then .skip
  else .runQuery query

/-- `process_queries(pdf_name)` run over a finite list of input lines:
returns the queries issued to `query_index` for `pdf_name`, in order, and
whether the loop hit `break` (returning control to the main menu) within
those lines.  An exhausted list means the loop is still blocked reading
the next line. -/
def process_queries (pdf_name : String) :
    List String → List QueryCall × Bool
  | [] => ([], false)
  | q :: rest =>
    match process_query_step q with
    | .exitLoop => ([], true)
    | .skip => process_queries pdf_name rest
    | .runQuery s =>
      let (qs, b) := process_queries pdf_name rest
      (query_index s pdf_name :: qs, b)

/-- The strings printed by the branch `process_queries` takes on one input
line, beyond the unconditional prompt and colour-reset of every
iteration: `break` and `continue` print nothing; a query prints the
cyan colour code, the streamed response, and a reset (lines 200-202). -/
def loop_branch_prints (streamed : String) (query : String) : List String :=
  match process_query_step query with
  | .exitLoop => []
  | .skip => []
  | .runQuery _ => ["\x1b[0;36m", streamed, "\x1b[0m\n"]

/-- The effects of `handle_custom_pdf_path` (lines 241-254) after the path
prompt returns `doc_path`: the `pdf_to_index` calls made, and the
messages printed.  `isfile` is `os.path.isfile`. -/
structure AddEffects where
  builds : List IndexWrite
  prints : List String
deriving DecidableEq, Repr

/-- `handle_custom_pdf_path` (lines 241-254): if `os.path.isfile(doc_path)`
is false, print the red error message and return (no build); otherwise
`save_pdf(doc_path, absolute=True)` and print the success message.
Either way the function returns to its caller and thence to the main
menu. -/
def handle_custom_pdf_path ( isfile : String → Bool) (doc_path : String) :
    AddEffects :=
  if ! isfile doc_path then
    { builds := [], prints := ["\x1b[0;31mUnable to find the document.\x1b[0m"] }
  else
    { builds := [save_pdf doc_path true], prints := ["Added your PDF"] }

/-- The file-system view `get_index_directories` consults: the entries
`os.listdir(PATH_TO_INDEXES)` returns, and the `os.path.isdir` predicate
on full paths. -/
structure DirListing where
  entries : List String
  is_dir : String → Bool

/-- `get_index_directories()` (lines 144-153): the entries `d` of the
indexes root for which `os.path.isdir(os.path.join(PATH_TO_INDEXES, d))`
holds. -/
def get_index_directories (fs : DirListing) : List String :=
  fs.entries.filter (fun d => fs.is_dir (PATH_TO_INDEXES ++ "/" ++ d))

/-- Outcome of `handle_document_query` (lines 129-141): either the
no-indexes message was printed and control went straight back to the
main menu, or a document was selected and the query loop ran on it. -/
inductive QueryFlow
  | noIndexes (printed : String)
  | queried (doc : String) (result : List QueryCall × Bool)
deriving Repr

/-- `handle_document_query` (lines 129-141): list the index directories;
if there are none, print "No PDFs were found" and return; otherwise
prompt for a selection (modelled by `choose`, the user's pick from the
offered list) and run `process_queries` on it with the given input
lines. -/
def handle_document_query (fs : DirListing)
    (choose : List String → String) (inputs : List String) : QueryFlow :=
  let dirs := get_index_directories fs
  if dirs.isEmpty then .noIndexes "\x1b[0;31mNo PDFs were found\x1b[0m"
  else
    let doc := choose dirs
    .queried doc (process_queries doc inputs)

end Pydocuchat

namespace Pydocuchat

/-- C4: the query loop terminates and returns to the main menu exactly on
the input line that is the literal `"exit"`: reading `"exit"` breaks out
of the loop without issuing any query, and no other line produces the
break step. -/
theorem exit_terminates_loop (pdf_name s : String) (rest : List String)
    (h : s ≠ "exit") :
    process_queries pdf_name ("exit" :: rest) = ([], true)
    ∧ process_query_step "exit" = .exitLoop
    ∧ process_query_step s ≠ .exitLoop := by
  refine ⟨rfl, rfl, ?_⟩
  unfold process_query_step
  rw [if_neg h]
  by_cases hb : pyStrip s = ""
  · rw [if_pos hb]; intro hc; exact LoopStep.noConfusion hc
  · rw [if_neg hb]; intro hc; exact LoopStep.noConfusion hc

/-- Witness for C4: on the lines `["exit", "what?"]` the loop for
`report.pdf` breaks at once with no query issued, and the line `"Exit"`
(wrong case) does not break the loop. -/
theorem exit_terminates_loop_witness :
    process_queries "report.pdf" ("exit" :: ["what?"]) = ([], true)
    ∧ process_query_step "exit" = .exitLoop
    ∧ process_query_step "Exit" ≠ .exitLoop :=
  exit_terminates_loop "report.pdf" "Exit" ["what?"] (by decide)

/-- C5: an input line whose `strip()` is empty (and therefore is not
`"exit"`) takes the `continue` branch: no query is issued and the loop
goes on exactly as it would on the remaining input, re-prompting for the
next line. -/
theorem blank_input_skips (pdf_name s : String) (rest : List String)
    (h : pyStrip s = "") :
    process_query_step s = .skip
    ∧ process_queries pdf_name (s :: rest) = process_queries pdf_name rest := by
  have hne : s ≠ "exit" := by
    intro he; rw [he] at h; exact absurd h (by decide)
  have hstep : process_query_step s = .skip := by
    unfold process_query_step
    rw [if_neg hne, if_pos h]
  refine ⟨hstep, ?_⟩
  show (match process_query_step s with
    | .exitLoop => ([], true)
    | .skip => process_queries pdf_name rest
    | .runQuery q =>
      let (qs, b) := process_queries pdf_name rest
      (query_index q pdf_name :: qs, b)) = process_queries pdf_name rest
  rw [hstep]

/-- Witness for C5: the whitespace-only line `"  \t "` is skipped and the
loop on `["  \t ", "exit"]` behaves exactly like the loop on
`["exit"]`. -/
theorem blank_input_skips_witness :
    process_query_step "  \t " = .skip
    ∧ process_queries "report.pdf" ("  \t " :: ["exit"])
        = process_queries "report.pdf" ["exit"] :=
  blank_input_skips "report.pdf" "  \t " ["exit"] (by decide)

end Pydocuchat

namespace Pydocuchat

/-- C6: in the custom-path branch of the add-document flow, a path that is
not an existing file yields exactly the error print, no `pdf_to_index`
call and hence no write under the indexes root, and the handler returns
(to the main menu); a path that is an existing file yields exactly the
absolute-mode build `save_pdf(doc_path, absolute=True)` and the success
print, and the handler likewise returns. -/
theorem custom_path_validation ( isfile : String → Bool) (doc_path : String) :
    ( isfile doc_path = false →
      handle_custom_pdf_path isfile doc_path
        = { builds := [],
            prints := ["\x1b[0;31mUnable to find the document.\x1b[0m"] })
    ∧ ( isfile doc_path = true →
      handle_custom_pdf_path isfile doc_path
        = { builds := [save_pdf doc_path true],
            prints := ["Added your PDF"] }) := by
  constructor
  · intro h
    unfold handle_custom_pdf_path
    rw [h]
    rfl
  · intro h
    unfold handle_custom_pdf_path
    rw [h]
    rfl

/-- Witness for C6: with a file system where only `docs/r.pdf` exists, the
missing path `ghost.pdf` produces the error print and no build, while
`docs/r.pdf` produces the absolute-mode build. -/
theorem custom_path_validation_witness :
    handle_custom_pdf_path (fun p => p = "docs/r.pdf") "ghost.pdf"
      = { builds := [],
          prints := ["\x1b[0;31mUnable to find the document.\x1b[0m"] }
    ∧ handle_custom_pdf_path (fun p => p = "docs/r.pdf") "docs/r.pdf"
      = { builds := [save_pdf "docs/r.pdf" true],
          prints := ["Added your PDF"] } :=
  ⟨(custom_path_validation (fun p => p = "docs/r.pdf") "ghost.pdf").1 (by decide),
   (custom_path_validation (fun p => p = "docs/r.pdf") "docs/r.pdf").2 (by decide)⟩

/-- C7: when no entry of the indexes root is a directory,
`handle_document_query` prints "No PDFs were found" and returns to the
main menu at once: the outcome is `noIndexes`, so no document selection
is offered, the query loop is never entered, and no `query_index` call is
made, whatever the user would have chosen or typed. -/
theorem no_indexes_stays_at_menu (fs : DirListing)
    (choose : List String → String) (inputs : List String)
    (h : get_index_directories fs = []) :
    handle_document_query fs choose inputs
      = .noIndexes "\x1b[0;31mNo PDFs were found\x1b[0m" := by
  unfold handle_document_query
  rw [h]
  rfl

/-- Witness for C7: an indexes root holding only the plain file
`notes.txt` (nothing is a directory) sends the query flow straight back
to the menu with the message, even with pending input lines. -/
theorem no_indexes_stays_at_menu_witness :
    handle_document_query
      { entries := ["notes.txt"], is_dir := fun _ => false }
      (fun dirs => dirs.headD "") ["what is this?"]
      = .noIndexes "\x1b[0;31mNo PDFs were found\x1b[0m" :=
  no_indexes_stays_at_menu
    { entries := ["notes.txt"], is_dir := fun _ => false }
    (fun dirs => dirs.headD "") ["what is this?"] rfl

/-- C10: the documents offered for querying are exactly the entries of the
indexes root that are directories: `d` is a selectable choice iff it is a
listed entry and `gpt_indexes/<d>` is a directory, so every plain file
directly under the indexes root is excluded and every selectable name
corresponds to an existing index directory. -/
theorem index_choices_are_directories (fs : DirListing) (d : String) :
    d ∈ get_index_directories fs
      ↔ d ∈ fs.entries ∧ fs.is_dir (PATH_TO_INDEXES ++ "/" ++ d) = true := by
  unfold get_index_directories
  exact List.mem_filter

end Pydocuchat

namespace Pydocuchat

/-- The events `main` (lines 266-287) sees, one per step of its
`while True` loop: a menu choice returned by `prompt_main_menu`, a
`KeyboardInterrupt` raised during the step (the prompts are created with
`raise_keyboard_interrupt=True`, and `input` raises it too), or an
`Exception` escaping the step's handler. -/
inductive MainEvent
  | choice (c : String)
  | interrupt
  | exc (e : String)

/-- How a run of `main` ended: the strings printed during shutdown before
the process-exit point, the process exit status, and the exception that
propagated out, if any. -/
structure ProgramExit where
  prints_before_exit : List String
  code : Nat
  raised : Option String
deriving DecidableEq, Repr

/-- `handle_exit` (lines 257-263): `print("\033[0m")` resets the terminal
text formatting (with a trailing newline), then `sys.exit()` — the
explicit process-exit call, which with no argument exits with status
0. -/
def handle_exit : ProgramExit :=
  { prints_before_exit := ["\x1b[0m\n"], code := 0, raised := none }

/-- The Python runtime's default exit status for a process terminated by
an unhandled exception. -/
def pythonUnhandledCode : Nat := 1

/-- `main` (lines 266-287) over its per-iteration events: `"Quit"` breaks
the loop and `main` returns, ending the process with status 0; any other
choice dispatches to its handler and loops; a `KeyboardInterrupt` is
caught by the `except KeyboardInterrupt` clause, which calls
`handle_exit`; an `Exception` is re-raised by `except Exception` and
propagates, terminating the process with the runtime-default code.
`none` means the event list ran out with `main` still looping. -/
def run_main : List MainEvent → Option ProgramExit
  | [] => none
  | .choice c :: rest =>
    if c = "Quit" then
      some { prints_before_exit := [], code := 0, raised := none }
    else run_main rest
  | .interrupt :: _ => some handle_exit
  | .exc e :: _ =>
    some { prints_before_exit := [],
           code := pythonUnhandledCode, raised := some e }

/-- Helper: iterations whose menu choice is not `"Quit"` keep the main
loop running, so the run's outcome is that of the remaining events. -/
theorem run_main_skips_nonquit (cs : List String) (tail : List MainEvent)
    (h : ∀ c ∈ cs, c ≠ "Quit") :
    run_main (cs.map MainEvent.choice ++ tail) = run_main tail := by
  induction cs with
  | nil => rfl
  | cons c cs ih =>
    have hc : c ≠ "Quit" := h c (List.mem_cons_self c cs)
    have hrest : ∀ x ∈ cs, x ≠ "Quit" :=
      fun x hx => h x (List.mem_cons_of_mem c hx)
    show run_main (MainEvent.choice c :: (cs.map MainEvent.choice ++ tail))
      = run_main tail
    simp only [run_main, if_neg hc]
    exact ih hrest

/-- C9: after any number of main-menu iterations that do not choose
`"Quit"`, choosing `"Quit"` ends the process with status 0 and nothing
raised; an interrupt at that point ends it through `handle_exit`, which
prints the formatting reset before the explicit exit call and exits with
status 0; an unhandled exception propagates and ends the process with
the non-zero runtime-default code. -/
theorem exit_status_behaviour (cs : List String) (rest : List MainEvent)
    (e : String) (h : ∀ c ∈ cs, c ≠ "Quit") :
    run_main (cs.map MainEvent.choice ++ MainEvent.choice "Quit" :: rest)
      = some { prints_before_exit := [], code := 0, raised := none }
    ∧ run_main (cs.map MainEvent.choice ++ MainEvent.interrupt :: rest)
      = some handle_exit
    ∧ handle_exit.prints_before_exit = ["\x1b[0m\n"]
    ∧ handle_exit.code = 0
    ∧ handle_exit.raised = none
    ∧ run_main (cs.map MainEvent.choice ++ MainEvent.exc e :: rest)
      = some { prints_before_exit := [],
               code := pythonUnhandledCode, raised := some e }
    ∧ pythonUnhandledCode ≠ 0 := by
  refine ⟨?_, ?_, rfl, rfl, rfl, ?_, by decide⟩
  · rw [run_main_skips_nonquit cs _ h]; rfl
  · rw [run_main_skips_nonquit cs _ h]; rfl
  · rw [run_main_skips_nonquit cs _ h]; rfl

/-- Witness for C9: after one "Query a document" iteration, Quit exits
with status 0, an interrupt exits through `handle_exit` with the reset
printed and status 0, and an exception ends the run with the non-zero
default code. -/
theorem exit_status_behaviour_witness :
    run_main (["Query a document"].map MainEvent.choice
        ++ MainEvent.choice "Quit" :: [])
      = some { prints_before_exit := [], code := 0, raised := none }
    ∧ run_main (["Query a document"].map MainEvent.choice
        ++ MainEvent.interrupt :: [])
      = some handle_exit
    ∧ handle_exit.prints_before_exit = ["\x1b[0m\n"]
    ∧ handle_exit.code = 0
    ∧ handle_exit.raised = none
    ∧ run_main (["Query a document"].map MainEvent.choice
        ++ MainEvent.exc "boom" :: [])
      = some { prints_before_exit := [],
               code := pythonUnhandledCode, raised := some "boom" }
    ∧ pythonUnhandledCode ≠ 0 :=
  exit_status_behaviour ["Query a document"] [] "boom" (by decide)

end Pydocuchat

namespace Pydocuchat

/-- C8 counterexample: at the concrete empty-query input `"   "` the query
loop takes the `continue` branch, and that branch prints nothing — no
message accompanies the handling of this user-input error, and the loop
stays where it is rather than returning anywhere. -/
theorem blank_query_no_message :
    loop_branch_prints "a streamed answer" "   " = []
    ∧ process_query_step "   " = LoopStep.skip := by
  constructor
  · rfl
  · rfl

/-- C8 amended: user-input errors are handled locally and cannot crash
the run: an invalid file path in the add-document flow prints the error
message, performs no build, and control returns to the main menu; an
empty query in the query loop is ignored without any printed message —
the iteration issues no query, prints nothing in its branch, and the
loop re-prompts, unchanged, on the remaining input. -/
theorem user_input_errors_handled_locally
    (pdf_name s doc_path streamed : String) ( isfile : String → Bool)
    (rest : List String)
    (hblank : pyStrip s = "") (hfile : isfile doc_path = false) :
    process_query_step s = LoopStep.skip
    ∧ loop_branch_prints streamed s = []
    ∧ process_queries pdf_name (s :: rest) = process_queries pdf_name rest
    ∧ handle_custom_pdf_path isfile doc_path
        = { builds := [],
            prints := ["\x1b[0;31mUnable to find the document.\x1b[0m"] } := by
  have hne : s ≠ "exit" := by
    intro he; rw [he] at hblank; exact absurd hblank (by decide)
  have hstep : process_query_step s = .skip := by
    unfold process_query_step
    rw [if_neg hne, if_pos hblank]
  refine ⟨hstep, ?_, ?_, ?_⟩
  · unfold loop_branch_prints
    rw [hstep]
  · show (match process_query_step s with
      | .exitLoop => ([], true)
      | .skip => process_queries pdf_name rest
      | .runQuery q =>
        let (qs, b) := process_queries pdf_name rest
        (query_index q pdf_name :: qs, b)) = process_queries pdf_name rest
    rw [hstep]
  · unfold handle_custom_pdf_path
    rw [hfile]
    rfl

/-- Witness for the amended C8: the blank line `"   "` is ignored with no
branch output while the loop carries on, and the missing path
`ghost.pdf` yields only the error print and no build. -/
theorem user_input_errors_handled_locally_witness :
    process_query_step "   " = LoopStep.skip
    ∧ loop_branch_prints "ans" "   " = []
    ∧ process_queries "report.pdf" ("   " :: ["exit"])
        = process_queries "report.pdf" ["exit"]
    ∧ handle_custom_pdf_path (fun _ => false) "ghost.pdf"
        = { builds := [],
            prints := ["\x1b[0;31mUnable to find the document.\x1b[0m"] } :=
  user_input_errors_handled_locally "report.pdf" "   " "ghost.pdf" "ans"
    (fun _ => false) ["exit"] (by decide) rfl

end Pydocuchat
